import Mathlib

/-!
Shallow embedding of `src/main.go` (a minimal HTTP service exposing
`POST /hellos`, `GET /hellos/{id}`, `GET /hellos`, backed by a Redis
key-value store).

Modelling conventions:
* The Redis client calls (`rdb.Get`, `rdb.Set`, `rdb.Keys`) are external
  collaborators.  Each handler is embedded as a pure function of the
  replies those calls produce (`GetReply`, `KeysReply`, `SetReply`),
  mirroring the Go control flow line by line.  A second layer
  (`runGetHelloByID`, `runGetHelloList`, `runSetHello`,
  `runStoreCreateHello`) instantiates those replies from an explicit
  store state (an association list of key/payload pairs), giving the
  fault-free Redis semantics: `GET` of an absent key is the `redis.Nil`
  reply, `GET` of a present key returns its value, `SET` always succeeds
  and overwrites, `KEYS hello:*` returns the matching keys (never the
  `redis.Nil` reply — an empty match is the empty list).
* `encoding/json` is an external collaborator.  Store values are modelled
  by `Payload`: `Payload.helloJson h` is the byte string produced by
  `json.Marshal` of the record `h` (injective on this two-string-field
  struct, with `json.Unmarshal` as its inverse), and `Payload.junk`
  stands for any byte string that does not deserialize to a `Hello`.
* `go-playground/validator` and `uuid` are external collaborators,
  modelled where they are used (see `Validate_Struct` and `Reachable`).
-/

/-- The record persisted by the service (`type Hello struct`). -/
structure Hello where
  ID : String
  Name : String
deriving DecidableEq, Repr

/-- Store values: either the `json.Marshal` image of a record or an
undeserializable byte string (models `encoding/json`, an external
collaborator). -/
inductive Payload where
  | helloJson (h : Hello)
  | junk (s : String)
deriving DecidableEq, Repr

/-- `func (h Hello) MarshalBinary() ([]byte, error)`: `json.Marshal(h)`.
On a struct of two plain string fields `json.Marshal` cannot fail, so the
model is total. -/
def Hello.MarshalBinary (h : Hello) : Payload := Payload.helloJson h

/-- `json.Unmarshal(data, &h)`: inverse of `json.Marshal` on record images,
failing on anything else. -/
def unmarshalHello : Payload → Option Hello
  | Payload.helloJson h => some h
  | Payload.junk _ => none

/-- `type CreateHelloRequestDTO struct { Name string ... }`. -/
structure CreateHelloRequestDTO where
  Name : String
deriving DecidableEq, Repr

/-- `func (h *CreateHelloRequestDTO) toHello() Hello` — `ID` is left at the
Go zero value `""`. -/
def CreateHelloRequestDTO.toHello (d : CreateHelloRequestDTO) : Hello :=
  { ID := "", Name := d.Name }

/-- `type HelloResponseDTO struct`. -/
structure HelloResponseDTO where
  ID : String
  Name : String
deriving DecidableEq, Repr

/-- `func (h Hello) ToHelloResponseDTO() HelloResponseDTO`. -/
def Hello.ToHelloResponseDTO (h : Hello) : HelloResponseDTO :=
  { ID := h.ID, Name := h.Name }

/-- `const HelloKey = "hello:"`. -/
def HelloKey : String := "hello:"

/-- Outcome of a `storeCreateHello` call, abstracting the sentinel error
joined onto the returned Go error (`errors.Join(ErrCannotMarshalHelloBinary …)`
and so on).  `marshalFailed` mirrors the `ErrCannotMarshalHelloBinary`
branch, unreachable in the model because `MarshalBinary` is total. -/
inductive CreateErr where
  | marshalFailed
  | writeFailed
  | readFailed
  | corrupt
deriving DecidableEq, Repr

/-- The distinguishable error values the handlers pass to the response
helpers. -/
inductive ErrKind where
  | decodeFailed
  | validationFailed
  | getNotFound (id : String)
  | getTransport
  | unmarshalFailed
  | keysTransport
  | listGetFailed (key : String)
  | create (e : CreateErr)
deriving DecidableEq, Repr

/-- The JSON body written by a handler.  `json.Marshal` of a `nil` Go slice
produces the literal `null`, and the list handlers build their slices with
`var xs []T` followed by `append`, so the slice is `nil` exactly when it is
empty; `JsonBody.null` is that case. -/
inductive JsonBody where
  | null
  | dto (d : HelloResponseDTO)
  | dtoList (l : List HelloResponseDTO)
  | errMsg (e : ErrKind)
  | noBody
deriving DecidableEq, Repr

/-- Status code plus body, the observable outcome of one handler call. -/
structure HttpResponse where
  status : Nat
  body : JsonBody
deriving DecidableEq, Repr

/-- `responseOK`: marshals the value and writes status 200.  Marshalling of
the response DTOs cannot fail, so the internal-error branch of the Go
function is unreachable and the model is total. -/
def responseOK (b : JsonBody) : HttpResponse := { status := 200, body := b }

/-- `responseBadRequest` → `responseErr(w, 400, err)`. -/
def responseBadRequest (e : ErrKind) : HttpResponse :=
  { status := 400, body := JsonBody.errMsg e }

/-- `responseNoContent`: writes status 204 and no body. -/
def responseNoContent : HttpResponse := { status := 204, body := JsonBody.noBody }

/-- `responseNotFound` → `responseErr(w, 404, err)`. -/
def responseNotFound (e : ErrKind) : HttpResponse :=
  { status := 404, body := JsonBody.errMsg e }

/-- `responseInternalServerError` → `responseErr(w, 500, err)`. -/
def responseInternalServerError (e : ErrKind) : HttpResponse :=
  { status := 500, body := JsonBody.errMsg e }

/-- Reply of one `rdb.Get(…).Result()` call: value found, the `redis.Nil`
error (key absent), or any other store-level error. -/
inductive GetReply where
  | ok (val : Payload)
  | nilErr
  | errOther
deriving DecidableEq, Repr

/-- Reply of one `rdb.Keys(…).Result()` call.  The Go code branches on
`err == redis.Nil`, so that constructor is kept even though the fault-free
semantics never produces it (`KEYS` answers an empty match with an empty
array reply, not with the nil reply). -/
inductive KeysReply where
  | ok (keys : List String)
  | nilErr
  | errOther
deriving DecidableEq, Repr

/-- Reply of one `rdb.Set(…).Err()` call. -/
inductive SetReply where
  | ok
  | errSet
deriving DecidableEq, Repr

/-- The request body of `POST /hellos` as seen by `json.Decode`: either not
valid JSON at all, or an object whose `name` field is present or absent. -/
inductive RequestBody where
  | malformed
  | obj (name : Option String)
deriving DecidableEq, Repr

/-- Modelled from the external `go-playground/validator` evaluation of the
tag `validate:"required,min=3"` on the string field `Name`: `required`
fails on the zero value `""`, `min=3` fails when the rune count is below
three. -/
def Validate_Struct (d : CreateHelloRequestDTO) : Bool :=
  decide (d.Name ≠ "") && decide (3 ≤ d.Name.length)

/-- `json.NewDecoder(r.Body).Decode(v)` for a `CreateHelloRequestDTO`
target: a missing `name` field leaves the Go zero value `""`. -/
def decodeCreateHelloRequest : RequestBody → Option CreateHelloRequestDTO
  | RequestBody.malformed => none
  | RequestBody.obj name => some { Name := name.getD "" }

/-- `func shouldBindJSON(r *http.Request, v interface{}) error`: decode,
then validate. -/
def shouldBindJSON (b : RequestBody) : Except ErrKind CreateHelloRequestDTO :=
  match decodeCreateHelloRequest b with
  | none => Except.error ErrKind.decodeFailed
  | some dto =>
    if Validate_Struct dto then Except.ok dto else Except.error ErrKind.validationFailed

/-- `func getHelloByID(w, r)` as a function of the path parameter and the
reply of its single `rdb.Get(ctx, HelloKey+id)` call. -/
def getHelloByID (id : String) (r : GetReply) : HttpResponse :=
  match r with
  | GetReply.nilErr => responseNotFound (ErrKind.getNotFound id)
  | GetReply.errOther => responseInternalServerError ErrKind.getTransport
  | GetReply.ok val =>
    match unmarshalHello val with
    | none => responseInternalServerError ErrKind.unmarshalFailed
    | some res => responseOK (JsonBody.dto res.ToHelloResponseDTO)

/-- The `for _, id := range keys` loop of `getHelloList`: read and
deserialize each enumerated key in order, aborting at the first failure.
Any `Get` error inside the loop (the code does not special-case
`redis.Nil` here) maps to `errors.Join(ErrHelloNotFound, "id: "+id)`. -/
def collectHellos (g : String → GetReply) : List String → Except ErrKind (List Hello)
  | [] => Except.ok []
  | k :: ks =>
    match g k with
    | GetReply.nilErr => Except.error (ErrKind.listGetFailed k)
    | GetReply.errOther => Except.error (ErrKind.listGetFailed k)
    | GetReply.ok val =>
      match unmarshalHello val with
      | none => Except.error ErrKind.unmarshalFailed
      | some hello => (collectHellos g ks).map (fun hs => hello :: hs)

/-- `json.Marshal` of the handler's `[]HelloResponseDTO` slice: the slice
starts as `nil` and only grows by `append`, so it is `nil` (marshalled as
the literal `null`) exactly when no record was collected. -/
def marshalDtoList (l : List HelloResponseDTO) : JsonBody :=
  if l.isEmpty then JsonBody.null else JsonBody.dtoList l

/-- `func getHelloList(w, r)` as a function of the `rdb.Keys` reply and the
replies of the per-key `rdb.Get` calls. -/
def getHelloList (kr : KeysReply) (g : String → GetReply) : HttpResponse :=
  match kr with
  | KeysReply.nilErr => responseNoContent
  | KeysReply.errOther => responseInternalServerError ErrKind.keysTransport
  | KeysReply.ok keys =>
    match collectHellos g keys with
    | Except.error e => responseInternalServerError e
    | Except.ok hellos =>
      responseOK (marshalDtoList (hellos.map Hello.ToHelloResponseDTO))

/-- `func storeCreateHello(ctx, hello)` as a function of the replies of its
`rdb.Set` and confirmation `rdb.Get` calls: marshal, write, read the same
key back, deserialize, return the read-back value. -/
def storeCreateHello (hello : Hello) (sr : SetReply) (gr : GetReply) :
    Except CreateErr Hello :=
  match sr with
  | SetReply.errSet => Except.error CreateErr.writeFailed
  | SetReply.ok =>
    match gr with
    | GetReply.nilErr => Except.error CreateErr.readFailed
    | GetReply.errOther => Except.error CreateErr.readFailed
    | GetReply.ok rs =>
      match unmarshalHello rs with
      | none => Except.error CreateErr.corrupt
      | some newHello => Except.ok newHello

/-- `func setHello(w, r)` as a function of the decoded request body, the
string `uuid.NewString()` returned, and the store replies: bind+validate,
assign the generated id, persist, answer. -/
def setHello (b : RequestBody) (u : String) (sr : SetReply) (gr : GetReply) :
    HttpResponse :=
  match shouldBindJSON b with
  | Except.error e => responseBadRequest e
  | Except.ok dto =>
    let hello : Hello := { dto.toHello with ID := u }
    match storeCreateHello hello sr gr with
    | Except.error e => responseInternalServerError (ErrKind.create e)
    | Except.ok newHello => responseOK (JsonBody.dto newHello.ToHelloResponseDTO)

/-! ### Fault-free store semantics -/

/-- The state of the external key-value store: an association of keys to
payloads, most recent write first. -/
def Store : Type := List (String × Payload)

/-- `GET key` against the store state. -/
def storeGet (s : Store) (k : String) : Option Payload :=
  (List.find? (fun p => p.1 == k) s).map (fun p => p.2)

/-- `SET key value` against the store state: overwrite. -/
def storeSet (s : Store) (k : String) (v : Payload) : Store :=
  (k, v) :: List.filter (fun p => !(p.1 == k)) s

/-- `KEYS hello:*` against the store state: the keys that start with the
`hello:` namespace, each at most once in the state by construction. -/
def storeKeysMatching (s : Store) : List String :=
  List.filter (fun k => k.startsWith HelloKey) (s.map (fun p => p.1))

/-- The `rdb.Get` reply the fault-free store produces for a key: the value
if present, the `redis.Nil` error if absent. -/
def getReplyOf (s : Store) (k : String) : GetReply :=
  match storeGet s k with
  | some v => GetReply.ok v
  | none => GetReply.nilErr

/-- `getHelloByID` served from the fault-free store. -/
def runGetHelloByID (s : Store) (id : String) : HttpResponse :=
  getHelloByID id (getReplyOf s (HelloKey ++ id))

/-- `getHelloList` served from the fault-free store. -/
def runGetHelloList (s : Store) : HttpResponse :=
  getHelloList (KeysReply.ok (storeKeysMatching s)) (getReplyOf s)

/-- `storeCreateHello` run against the fault-free store: the `SET` writes
`MarshalBinary hello` under `HelloKey ++ hello.ID` and succeeds, and the
confirmation `GET` is answered from the updated state.  Returns the Go
result together with the store state after the call. -/
def runStoreCreateHello (s : Store) (hello : Hello) :
    Except CreateErr Hello × Store :=
  let s' := storeSet s (HelloKey ++ hello.ID) hello.MarshalBinary
  (storeCreateHello hello SetReply.ok (getReplyOf s' (HelloKey ++ hello.ID)), s')

/-- `setHello` run against the fault-free store, with `u` the string
returned by `uuid.NewString()`: the response together with the store state
after the request.  No store write happens when binding fails. -/
def runSetHello (s : Store) (b : RequestBody) (u : String) :
    HttpResponse × Store :=
  match shouldBindJSON b with
  | Except.error e => (responseBadRequest e, s)
  | Except.ok dto =>
    let hello : Hello := { dto.toHello with ID := u }
    let r := runStoreCreateHello s hello
    (match r.1 with
     | Except.error e => responseInternalServerError (ErrKind.create e)
     | Except.ok newHello => responseOK (JsonBody.dto newHello.ToHelloResponseDTO),
     r.2)

/-- The store states reachable through this service.  The only write path
is `setHello` (the `GET` handlers do not change the store), and
`uuid.NewString()` always returns a 36-character canonical UUID, hence a
non-empty string — that property of the external generator is the `hu`
hypothesis of `step`. -/
inductive Reachable : Store → Prop
  | empty : Reachable []
  | step (s : Store) (b : RequestBody) (u : String) (hu : u ≠ "") :
      Reachable s → Reachable (runSetHello s b u).2

/-! ### Helper lemmas -/

theorem find?_filter_ne (k k' : String) (hne : k' ≠ k) (s : Store) :
    List.find? (fun p => p.1 == k') (List.filter (fun p => !(p.1 == k)) s) =
    List.find? (fun p => p.1 == k') s := by
  induction s with
  | nil => rfl
  | cons q t ih =>
    by_cases hq : q.1 = k
    · have h1 : (q.1 == k) = true := beq_iff_eq.mpr hq
      have h2 : (q.1 == k') = false := by
        apply beq_eq_false_iff_ne.mpr
        intro h; exact hne (h.symm.trans hq)
      simp [List.filter, List.find?, h1, h2, ih]
    · have h1 : (q.1 == k) = false := beq_eq_false_iff_ne.mpr hq
      by_cases hq' : q.1 = k'
      · have h2 : (q.1 == k') = true := beq_iff_eq.mpr hq'
        simp [List.filter, List.find?, h1, h2]
      · have h2 : (q.1 == k') = false := beq_eq_false_iff_ne.mpr hq'
        simp [List.filter, List.find?, h1, h2, ih]

theorem storeGet_storeSet (s : Store) (k k' : String) (v : Payload) :
    storeGet (storeSet s k v) k' = if k' = k then some v else storeGet s k' := by
  by_cases h : k' = k
  · subst h
    simp [storeGet, storeSet, List.find?]
  · have hb : (k == k') = false := beq_eq_false_iff_ne.mpr (fun he => h he.symm)
    simp [storeGet, storeSet, List.find?, hb, find?_filter_ne k k' h, h]

theorem append_left_cancel_str (p a b : String) (h : p ++ a = p ++ b) : a = b := by
  have hd : p.data ++ a.data = p.data ++ b.data := by
    have := congrArg String.data h
    simpa [String.data_append] using this
  have : a.data = b.data := List.append_cancel_left hd
  exact String.ext this

theorem storeGet_nil (k : String) : storeGet [] k = none := rfl

theorem Validate_Struct_of_three_le (n : String) (hn : 3 ≤ n.length) :
    Validate_Struct { Name := n } = true := by
  have hne : n ≠ "" := by
    intro h
    rw [h, String.length_empty] at hn
    omega
  simp [Validate_Struct, hne, hn]

theorem shouldBindJSON_valid (n : String) (hn : 3 ≤ n.length) :
    shouldBindJSON (RequestBody.obj (some n)) = Except.ok { Name := n } := by
  simp [shouldBindJSON, decodeCreateHelloRequest, Validate_Struct_of_three_le n hn]

theorem shouldBindJSON_ok_length (b : RequestBody) (dto : CreateHelloRequestDTO)
    (h : shouldBindJSON b = Except.ok dto) : 3 ≤ dto.Name.length := by
  cases b with
  | malformed => simp [shouldBindJSON, decodeCreateHelloRequest] at h
  | obj name =>
    by_cases hv : Validate_Struct { Name := name.getD "" } = true
    · have hd : dto = { Name := name.getD "" } := by
        simp [shouldBindJSON, decodeCreateHelloRequest, hv] at h
        exact h.symm
      have := hv
      simp [Validate_Struct] at this
      rw [hd]
      exact this.2
    · simp [shouldBindJSON, decodeCreateHelloRequest, hv] at h

theorem runSetHello_store_of_error (s : Store) (b : RequestBody) (u : String)
    (e : ErrKind) (hb : shouldBindJSON b = Except.error e) :
    (runSetHello s b u).2 = s := by
  simp [runSetHello, hb]

theorem runSetHello_store_of_ok (s : Store) (b : RequestBody) (u : String)
    (dto : CreateHelloRequestDTO) (hb : shouldBindJSON b = Except.ok dto) :
    (runSetHello s b u).2 =
      storeSet s (HelloKey ++ u) (Payload.helloJson { ID := u, Name := dto.Name }) := by
  simp [runSetHello, hb, runStoreCreateHello, CreateHelloRequestDTO.toHello,
    Hello.MarshalBinary]

theorem runSetHello_valid (s : Store) (n u : String) (hn : 3 ≤ n.length) :
    runSetHello s (RequestBody.obj (some n)) u =
      (responseOK (JsonBody.dto { ID := u, Name := n }),
       storeSet s (HelloKey ++ u) (Payload.helloJson { ID := u, Name := n })) := by
  have hb := shouldBindJSON_valid n hn
  simp [runSetHello, hb, runStoreCreateHello, CreateHelloRequestDTO.toHello,
    Hello.MarshalBinary, getReplyOf, storeGet_storeSet, storeCreateHello,
    unmarshalHello, Hello.ToHelloResponseDTO]

/-! ### Claims -/

/-- C1: the spec says that a listing request against a store holding zero
records under the `hello:` ns yields an empty sequence with HTTP 204
No Content.  The code's 204 branch is dead (it fires only on the
`redis.Nil` reply, which `KEYS` never produces); on the empty store the
handler actually responds 200 with body `null`.  This theorem evaluates
the embedded handler at the failing input — the empty store — exhibiting
the divergence. -/
theorem getHelloList_empty_store_responds_200_not_204 :
    runGetHelloList [] = responseOK JsonBody.null ∧
    (runGetHelloList []).status = 200 ∧
    runGetHelloList [] ≠ responseNoContent := by
  refine ⟨rfl, rfl, ?_⟩
  decide

/-- C9: when enumeration yields zero keys (and the fault-free store raises
no error), the listing handler responds HTTP 200 with body the JSON
serialization of the nil slice — the literal `null` — not an empty array
and not 204 No Content. -/
theorem getHelloList_zero_keys_200_null (s : Store)
    (hz : storeKeysMatching s = []) :
    (runGetHelloList s).status = 200 ∧
    (runGetHelloList s).body = JsonBody.null ∧
    runGetHelloList s ≠ responseNoContent ∧
    ∀ l, (runGetHelloList s).body ≠ JsonBody.dtoList l := by
  unfold runGetHelloList
  rw [hz]
  have he : getHelloList (KeysReply.ok []) (getReplyOf s) = responseOK JsonBody.null := rfl
  rw [he]
  exact ⟨rfl, rfl, by simp [responseOK, responseNoContent],
    fun l h => by simp [responseOK] at h⟩

/-- C9 witness: the empty store enumerates zero keys. -/
theorem getHelloList_zero_keys_200_null_witness :
    (runGetHelloList []).status = 200 ∧
    (runGetHelloList []).body = JsonBody.null ∧
    runGetHelloList [] ≠ responseNoContent ∧
    (runGetHelloList []).body ≠ JsonBody.dtoList [] :=
  ⟨(getHelloList_zero_keys_200_null [] rfl).1,
   (getHelloList_zero_keys_200_null [] rfl).2.1,
   (getHelloList_zero_keys_200_null [] rfl).2.2.1,
   (getHelloList_zero_keys_200_null [] rfl).2.2.2 []⟩

/-- C2: fetching by an id whose key `hello:` ++ id is absent from the store
yields 404 (never 500); any other store-level failure of the `GET` yields
the 500 response carrying the transport error; an undeserializable payload
yields the 500 response carrying the unmarshal error. -/
theorem getHelloByID_error_mapping (s : Store) (id : String) (v : Payload)
    (habsent : storeGet s (HelloKey ++ id) = none)
    (hcorrupt : unmarshalHello v = none) :
    runGetHelloByID s id = responseNotFound (ErrKind.getNotFound id) ∧
    (runGetHelloByID s id).status = 404 ∧
    (runGetHelloByID s id).status ≠ 500 ∧
    getHelloByID id GetReply.errOther =
      responseInternalServerError ErrKind.getTransport ∧
    getHelloByID id (GetReply.ok v) =
      responseInternalServerError ErrKind.unmarshalFailed := by
  have h1 : runGetHelloByID s id = responseNotFound (ErrKind.getNotFound id) := by
    simp [runGetHelloByID, getReplyOf, habsent, getHelloByID]
  refine ⟨h1, by rw [h1]; rfl, by rw [h1]; simp [responseNotFound], rfl, ?_⟩
  simp [getHelloByID, hcorrupt]

/-- C2 witness: the empty store lacks the key `hello:abc`, and the junk
payload does not deserialize. -/
theorem getHelloByID_error_mapping_witness :
    runGetHelloByID [] "abc" = responseNotFound (ErrKind.getNotFound "abc") ∧
    (runGetHelloByID [] "abc").status = 404 ∧
    (runGetHelloByID [] "abc").status ≠ 500 ∧
    getHelloByID "abc" GetReply.errOther =
      responseInternalServerError ErrKind.getTransport ∧
    getHelloByID "abc" (GetReply.ok (Payload.junk "??")) =
      responseInternalServerError ErrKind.unmarshalFailed :=
  getHelloByID_error_mapping [] "abc" (Payload.junk "??") rfl rfl

/-- A record read fails at key `k` when the `GET` reply is an error (the
`redis.Nil` reply or any other failure) or the returned payload does not
deserialize to a `Hello`. -/
def recordReadFails (g : String → GetReply) (k : String) : Prop :=
  match g k with
  | GetReply.ok v => unmarshalHello v = none
  | GetReply.nilErr => True
  | GetReply.errOther => True

theorem collectHellos_error_of_bad (g : String → GetReply) :
    ∀ keys : List String, (∃ k ∈ keys, recordReadFails g k) →
    ∃ e, collectHellos g keys = Except.error e := by
  intro keys
  induction keys with
  | nil =>
    rintro ⟨k, hk, -⟩
    cases hk
  | cons a ks ih =>
    rintro ⟨k, hk, hfail⟩
    cases hg : g a with
    | nilErr => exact ⟨ErrKind.listGetFailed a, by simp [collectHellos, hg]⟩
    | errOther => exact ⟨ErrKind.listGetFailed a, by simp [collectHellos, hg]⟩
    | ok v =>
      cases hv : unmarshalHello v with
      | none => exact ⟨ErrKind.unmarshalFailed, by simp [collectHellos, hg, hv]⟩
      | some h =>
        have hk' : k ∈ ks := by
          cases hk with
          | head =>
            exfalso
            simp [recordReadFails, hg, hv] at hfail
          | tail _ htl => exact htl
        obtain ⟨e, he⟩ := ih ⟨k, hk', hfail⟩
        exact ⟨e, by simp [collectHellos, hg, hv, he, Except.map]⟩

/-- C6: if the read or deserialization of any single enumerated record
fails, the whole listing aborts with HTTP 500 carrying an error body — no
partial sequence of records is returned. -/
theorem getHelloList_aborts_on_bad_record (keys : List String)
    (g : String → GetReply) (hbad : ∃ k ∈ keys, recordReadFails g k) :
    (getHelloList (KeysReply.ok keys) g).status = 500 ∧
    (∃ e, (getHelloList (KeysReply.ok keys) g).body = JsonBody.errMsg e) ∧
    ∀ l, (getHelloList (KeysReply.ok keys) g).body ≠ JsonBody.dtoList l := by
  obtain ⟨e, he⟩ := collectHellos_error_of_bad g keys hbad
  refine ⟨?_, ⟨e, ?_⟩, ?_⟩ <;>
    simp [getHelloList, he, responseInternalServerError]

/-- C6 witness: a one-key enumeration whose only read fails with a
transport error. -/
theorem getHelloList_aborts_on_bad_record_witness :
    (getHelloList (KeysReply.ok ["hello:x"]) (fun _ => GetReply.errOther)).status = 500 ∧
    (∃ e, (getHelloList (KeysReply.ok ["hello:x"])
        (fun _ => GetReply.errOther)).body = JsonBody.errMsg e) ∧
    (getHelloList (KeysReply.ok ["hello:x"])
        (fun _ => GetReply.errOther)).body ≠ JsonBody.dtoList [] :=
  ⟨(getHelloList_aborts_on_bad_record ["hello:x"] (fun _ => GetReply.errOther)
      ⟨"hello:x", by simp, by simp [recordReadFails]⟩).1,
   (getHelloList_aborts_on_bad_record ["hello:x"] (fun _ => GetReply.errOther)
      ⟨"hello:x", by simp, by simp [recordReadFails]⟩).2.1,
   (getHelloList_aborts_on_bad_record ["hello:x"] (fun _ => GetReply.errOther)
      ⟨"hello:x", by simp, by simp [recordReadFails]⟩).2.2 []⟩

/-- C4: a creation request whose body is malformed JSON, or whose `name`
field is missing or shorter than 3 characters, is rejected with HTTP 400
and the store state is unchanged (no write occurs). -/
theorem setHello_invalid_rejected (s : Store) (u : String) (b : RequestBody)
    (hinvalid : b = RequestBody.malformed ∨
      ∃ name, b = RequestBody.obj name ∧ (name.getD "").length < 3) :
    (runSetHello s b u).1.status = 400 ∧ (runSetHello s b u).2 = s := by
  have hb : ∃ e, shouldBindJSON b = Except.error e := by
    rcases hinvalid with hmal | ⟨name, hobj, hlen⟩
    · subst hmal
      exact ⟨_, rfl⟩
    · subst hobj
      have hv : Validate_Struct { Name := name.getD "" } = false := by
        have : ¬ (3 ≤ (name.getD "").length) := by omega
        simp [Validate_Struct, this]
      exact ⟨ErrKind.validationFailed,
        by simp [shouldBindJSON, decodeCreateHelloRequest, hv]⟩
  obtain ⟨e, he⟩ := hb
  constructor
  · simp [runSetHello, he, responseBadRequest]
  · exact runSetHello_store_of_error s b u e he

/-- C4 witness: the malformed body and the two-character name `ab` are both
rejected without a write, starting from the empty store. -/
theorem setHello_invalid_rejected_witness :
    ((runSetHello [] RequestBody.malformed "u1").1.status = 400 ∧
      (runSetHello [] RequestBody.malformed "u1").2 = []) ∧
    ((runSetHello [] (RequestBody.obj (some "ab")) "u1").1.status = 400 ∧
      (runSetHello [] (RequestBody.obj (some "ab")) "u1").2 = []) :=
  ⟨setHello_invalid_rejected [] "u1" RequestBody.malformed (Or.inl rfl),
   setHello_invalid_rejected [] "u1" (RequestBody.obj (some "ab"))
     (Or.inr ⟨some "ab", rfl, by decide⟩)⟩

/-- C3: `storeCreateHello` serializes the record, writes it under the key
`hello:` ++ id, immediately reads that key back and returns the
deserialized read-back value (against the fault-free store: the state
gains exactly that entry and the input record is returned); it fails with
the write error when the `SET` fails, the read error when the confirmation
`GET` fails (either reply), and the corrupt error when the confirmation
payload does not deserialize — and in that last family it returns whatever
the read-back payload deserializes to. -/
theorem storeCreateHello_spec (s : Store) (h : Hello) (v : Payload)
    (hv : unmarshalHello v = none) :
    runStoreCreateHello s h =
      (Except.ok h, storeSet s (HelloKey ++ h.ID) h.MarshalBinary) ∧
    (∀ gr, storeCreateHello h SetReply.errSet gr =
      Except.error CreateErr.writeFailed) ∧
    storeCreateHello h SetReply.ok GetReply.nilErr =
      Except.error CreateErr.readFailed ∧
    storeCreateHello h SetReply.ok GetReply.errOther =
      Except.error CreateErr.readFailed ∧
    storeCreateHello h SetReply.ok (GetReply.ok v) =
      Except.error CreateErr.corrupt ∧
    (∀ v' nh, unmarshalHello v' = some nh →
      storeCreateHello h SetReply.ok (GetReply.ok v') = Except.ok nh) := by
  refine ⟨?_, fun gr => rfl, rfl, rfl, ?_, ?_⟩
  · simp [runStoreCreateHello, getReplyOf, storeGet_storeSet, Hello.MarshalBinary,
      storeCreateHello, unmarshalHello]
  · simp [storeCreateHello, hv]
  · intro v' nh hnh
    simp [storeCreateHello, hnh]

/-- C3 witness: a concrete record against the empty store, with a junk
payload for the corrupt branch and a concrete read-back payload for the
success branch. -/
theorem storeCreateHello_spec_witness :
    runStoreCreateHello [] { ID := "i1", Name := "alice" } =
      (Except.ok { ID := "i1", Name := "alice" },
       storeSet [] (HelloKey ++ "i1")
         (Hello.MarshalBinary { ID := "i1", Name := "alice" })) ∧
    storeCreateHello { ID := "i1", Name := "alice" } SetReply.errSet
        GetReply.nilErr = Except.error CreateErr.writeFailed ∧
    storeCreateHello { ID := "i1", Name := "alice" } SetReply.ok GetReply.nilErr =
      Except.error CreateErr.readFailed ∧
    storeCreateHello { ID := "i1", Name := "alice" } SetReply.ok GetReply.errOther =
      Except.error CreateErr.readFailed ∧
    storeCreateHello { ID := "i1", Name := "alice" } SetReply.ok
        (GetReply.ok (Payload.junk "??")) =
      Except.error CreateErr.corrupt ∧
    storeCreateHello { ID := "i1", Name := "alice" } SetReply.ok
        (GetReply.ok (Payload.helloJson { ID := "i2", Name := "bob" })) =
      Except.ok { ID := "i2", Name := "bob" } :=
  ⟨(storeCreateHello_spec [] { ID := "i1", Name := "alice" }
      (Payload.junk "??") rfl).1,
   (storeCreateHello_spec [] { ID := "i1", Name := "alice" }
      (Payload.junk "??") rfl).2.1 GetReply.nilErr,
   (storeCreateHello_spec [] { ID := "i1", Name := "alice" }
      (Payload.junk "??") rfl).2.2.1,
   (storeCreateHello_spec [] { ID := "i1", Name := "alice" }
      (Payload.junk "??") rfl).2.2.2.1,
   (storeCreateHello_spec [] { ID := "i1", Name := "alice" }
      (Payload.junk "??") rfl).2.2.2.2.1,
   (storeCreateHello_spec [] { ID := "i1", Name := "alice" }
      (Payload.junk "??") rfl).2.2.2.2.2
     (Payload.helloJson { ID := "i2", Name := "bob" }) { ID := "i2", Name := "bob" } rfl⟩

/-- C5: creating a record from a valid payload and then fetching by the id
returned from creation yields a record whose name is identical to the
submitted name. -/
theorem create_then_get_roundtrip (s : Store) (n u : String) (hn : 3 ≤ n.length) :
    ∃ i,
      (runSetHello s (RequestBody.obj (some n)) u).1 =
        responseOK (JsonBody.dto { ID := i, Name := n }) ∧
      runGetHelloByID (runSetHello s (RequestBody.obj (some n)) u).2 i =
        responseOK (JsonBody.dto { ID := i, Name := n }) := by
  refine ⟨u, ?_, ?_⟩
  · rw [runSetHello_valid s n u hn]
  · rw [runSetHello_valid s n u hn]
    simp [runGetHelloByID, getReplyOf, storeGet_storeSet, getHelloByID,
      unmarshalHello, Hello.ToHelloResponseDTO]

/-- C5 witness: creating `alice` in the empty store and reading it back. -/
theorem create_then_get_roundtrip_witness :
    ∃ i,
      (runSetHello [] (RequestBody.obj (some "alice")) "id-1").1 =
        responseOK (JsonBody.dto { ID := i, Name := "alice" }) ∧
      runGetHelloByID (runSetHello [] (RequestBody.obj (some "alice")) "id-1").2 i =
        responseOK (JsonBody.dto { ID := i, Name := "alice" }) :=
  create_then_get_roundtrip [] "alice" "id-1" (by decide)

/-- C7: for valid creation payloads (name length at least 3) the record
returned by the handler carries a non-empty id, and two successive calls —
with the external uuid generator modelled as producing fresh, distinct,
non-empty strings — return pairwise distinct ids. -/
theorem setHello_ids_nonempty_distinct (s : Store) (n1 n2 u1 u2 : String)
    (h1 : 3 ≤ n1.length) (h2 : 3 ≤ n2.length)
    (hu1 : u1 ≠ "") (hu2 : u2 ≠ "") (hne : u1 ≠ u2) :
    ∃ i1 i2,
      (runSetHello s (RequestBody.obj (some n1)) u1).1 =
        responseOK (JsonBody.dto { ID := i1, Name := n1 }) ∧
      (runSetHello (runSetHello s (RequestBody.obj (some n1)) u1).2
          (RequestBody.obj (some n2)) u2).1 =
        responseOK (JsonBody.dto { ID := i2, Name := n2 }) ∧
      i1 ≠ "" ∧ i2 ≠ "" ∧ i1 ≠ i2 := by
  refine ⟨u1, u2, ?_, ?_, hu1, hu2, hne⟩
  · rw [runSetHello_valid s n1 u1 h1]
  · rw [runSetHello_valid s n1 u1 h1,
      runSetHello_valid _ n2 u2 h2]

/-- C7 witness: two creations with distinct generated ids. -/
theorem setHello_ids_nonempty_distinct_witness :
    ∃ i1 i2,
      (runSetHello [] (RequestBody.obj (some "alice")) "id-1").1 =
        responseOK (JsonBody.dto { ID := i1, Name := "alice" }) ∧
      (runSetHello (runSetHello [] (RequestBody.obj (some "alice")) "id-1").2
          (RequestBody.obj (some "bob")) "id-2").1 =
        responseOK (JsonBody.dto { ID := i2, Name := "bob" }) ∧
      i1 ≠ "" ∧ i2 ≠ "" ∧ i1 ≠ i2 :=
  setHello_ids_nonempty_distinct [] "alice" "bob" "id-1" "id-2"
    (by decide) (by decide) (by decide) (by decide) (by decide)

/-- C8: in every store state reachable through this service's operations,
every persisted payload deserializes to a record with a non-empty id and a
name of length at least 3 — the only write path validates the name first
and then assigns the generated (non-empty) id. -/
theorem reachable_store_invariant (s : Store) (hs : Reachable s) :
    ∀ k v, storeGet s k = some v →
      ∃ h, unmarshalHello v = some h ∧ h.ID ≠ "" ∧ 3 ≤ h.Name.length := by
  induction hs with
  | empty =>
    intro k v hget
    simp [storeGet] at hget
  | step s' b u hu hr ih =>
    intro k v hget
    cases hb : shouldBindJSON b with
    | error e =>
      rw [runSetHello_store_of_error s' b u e hb] at hget
      exact ih k v hget
    | ok dto =>
      rw [runSetHello_store_of_ok s' b u dto hb, storeGet_storeSet] at hget
      by_cases hk : k = HelloKey ++ u
      · rw [if_pos hk] at hget
        obtain rfl := Option.some.inj hget
        exact ⟨{ ID := u, Name := dto.Name }, rfl, hu,
          shouldBindJSON_ok_length b dto hb⟩
      · rw [if_neg hk] at hget
        exact ih k v hget

/-- C8 witness: the store reached by one valid creation, inspected at the
written key. -/
theorem reachable_store_invariant_witness :
    ∃ h, unmarshalHello (Payload.helloJson { ID := "id-1", Name := "alice" }) =
        some h ∧ h.ID ≠ "" ∧ 3 ≤ h.Name.length :=
  reachable_store_invariant _
    (Reachable.step [] (RequestBody.obj (some "alice")) "id-1" (by decide)
      Reachable.empty)
    (HelloKey ++ "id-1") (Payload.helloJson { ID := "id-1", Name := "alice" })
    (by decide)

/-- C10: every store write performed by the service uses the key
`hello:` ++ r.ID with exactly the serialization of r as payload, and
consequently, in every reachable store state, the value found under the
key `hello:` ++ id deserializes to a record whose id field equals id. -/
theorem reachable_key_content_consistency (s : Store) (hs : Reachable s) :
    (∀ s0 h, (runStoreCreateHello s0 h).2 =
      storeSet s0 (HelloKey ++ h.ID) h.MarshalBinary) ∧
    ∀ id v, storeGet s (HelloKey ++ id) = some v →
      ∃ h, unmarshalHello v = some h ∧ h.ID = id := by
  refine ⟨fun s0 h => rfl, ?_⟩
  induction hs with
  | empty =>
    intro id v hget
    simp [storeGet] at hget
  | step s' b u hu hr ih =>
    intro id v hget
    cases hb : shouldBindJSON b with
    | error e =>
      rw [runSetHello_store_of_error s' b u e hb] at hget
      exact ih id v hget
    | ok dto =>
      rw [runSetHello_store_of_ok s' b u dto hb, storeGet_storeSet] at hget
      by_cases hk : HelloKey ++ id = HelloKey ++ u
      · rw [if_pos hk] at hget
        obtain rfl := Option.some.inj hget
        exact ⟨{ ID := u, Name := dto.Name }, rfl,
          (append_left_cancel_str HelloKey id u hk).symm⟩
      · rw [if_neg hk] at hget
        exact ih id v hget

/-- C10 witness: the store reached by one valid creation, inspected at the
namespaced key of the created id. -/
theorem reachable_key_content_consistency_witness :
    ∃ h, unmarshalHello (Payload.helloJson { ID := "id-1", Name := "alice" }) =
        some h ∧ h.ID = "id-1" :=
  (reachable_key_content_consistency _
    (Reachable.step [] (RequestBody.obj (some "alice")) "id-1" (by decide)
      Reachable.empty)).2 "id-1"
    (Payload.helloJson { ID := "id-1", Name := "alice" }) (by decide)
